import Mathlib

/-!
Verification of the compliance classification and scoring core of the
Security Compliance Analysis Tool (`src/Baseline.py`).

The Python program keeps a mutable session object (`SecurityComplianceTool`)
whose fields are set in sequence by `extract_controls`, `analyze_compliance`,
`generate_recommendations` and `generate_report`.  We embed that session
object as an explicit `ToolState` record and each method as a pure function
from state to (state, result).  Python dicts are embedded as association
lists in insertion order (the iteration order of a Python dict); floats are
embedded as exact rationals.
-/

namespace Baseline

/-- The `{"expected": ..., "current": ...}` value attached to each control
name in the compliance-data dict. -/
structure ControlValues where
  expected : String
  current : String
deriving DecidableEq, Repr

/-- An entry of `self.non_compliant_controls`: the dict
`{"control": ..., "expected": ..., "current": ...}` appended at
`Baseline.py` lines 129-133. -/
structure NonCompliantEntry where
  control : String
  expected : String
  current : String
deriving DecidableEq, Repr

/-- The dict returned by `analyze_compliance` (lines 139-144). -/
structure AnalysisResult where
  compliant : List String
  non_compliant : List NonCompliantEntry
  missing : List String
  score : ℚ
deriving DecidableEq, Repr

/-- A recommendation dict `{"control": ..., "recommendation": ...}`
produced by `generate_recommendations`. -/
structure Recommendation where
  control : String
  recommendation : String
deriving DecidableEq, Repr

/-- The mutable fields of `SecurityComplianceTool` (lines 19-26) that the
core logic reads and writes.  `compliance_data` is `none` before
`extract_controls` runs (Python `None`); a Python dict is an association
list in insertion order. -/
structure ToolState where
  compliance_data : Option (List (String × ControlValues))
  compliant_controls : List String
  non_compliant_controls : List NonCompliantEntry
  missing_controls : List String
  compliance_score : ℚ
deriving DecidableEq, Repr

/-- Constructor `__init__` (lines 19-26): no data, empty buckets, score 0. -/
def initState : ToolState :=
  { compliance_data := none
    compliant_controls := []
    non_compliant_controls := []
    missing_controls := []
    compliance_score := 0 }

/-- Python truthiness of `self.compliance_data` as used in the guards
`if not self.compliance_data` (lines 115 and 194): falsy when `None` or
the empty dict. -/
def dataFalsy (d : Option (List (String × ControlValues))) : Bool :=
  match d with
  | none => true
  | some l => l.isEmpty

/-- The fixed example dataset of `extract_controls` (lines 100-108), in
source order. -/
def exampleControls : List (String × ControlValues) :=
  [ ("Strong Password Policy", ⟨"implemented", "implemented"⟩)
  , ("Access Control", ⟨"implemented", "implemented"⟩)
  , ("Disable LOAD DATA LOCAL INFILE", ⟨"0", "1"⟩)
  , ("Error Limit", ⟨"3", "10"⟩)
  , ("User Management", ⟨"implemented", "implemented"⟩)
  , ("Server-Side Scripting", ⟨"disabled", "enabled"⟩)
  , ("Encryption", ⟨"implemented", "missing"⟩) ]

/-- Method `extract_controls` (lines 94-111): stores the example dataset in
`self.compliance_data` and returns it. -/
def extract_controls (s : ToolState) :
    ToolState × List (String × ControlValues) :=
  ({ s with compliance_data := some exampleControls }, exampleControls)

/-- The three buckets a control can land in. -/
inductive Bucket where
  | compliant
  | nonCompliant
  | missing
deriving DecidableEq, Repr

/-- The per-control decision of the loop body (lines 124-133).  Python
precedence parses line 124 as
`current == expected or (current == "implemented" and expected == "implemented")`. -/
def classifyControl (v : ControlValues) : Bucket :=
  if v.current = v.expected ∨ (v.current = "implemented" ∧ v.expected = "implemented") then
    Bucket.compliant
  else if v.current = "missing" then
    Bucket.missing
  else
    Bucket.nonCompliant

/-- The classification loop (lines 123-133): walks the dict in iteration
order and appends each control name (or, for non-compliant controls, the
`{control, expected, current}` record) to the bucket chosen by
`classifyControl`.  Returns (compliant, non_compliant, missing). -/
def classifyList :
    List (String × ControlValues) →
    List String × List NonCompliantEntry × List String
  | [] => ([], [], [])
  | (name, v) :: rest =>
    let r := classifyList rest
    match classifyControl v with
    | Bucket.compliant => (name :: r.1, r.2.1, r.2.2)
    | Bucket.nonCompliant => (r.1, ⟨name, v.expected, v.current⟩ :: r.2.1, r.2.2)
    | Bucket.missing => (r.1, r.2.1, name :: r.2.2)

/-- Method `analyze_compliance` (lines 113-144).  Guard (lines 115-117): if
`self.compliance_data` is falsy, print and return `None` leaving the state
untouched.  Otherwise reset and refill the three bucket fields, compute
`(compliant_count / total_controls) * 100` and return the result dict. -/
def analyze_compliance (s : ToolState) : ToolState × Option AnalysisResult :=
  match s.compliance_data with
  | none => (s, none)
  | some data =>
    if data.isEmpty then (s, none)
    else
      let b := classifyList data
      let score : ℚ := ((b.1.length : ℚ) / (data.length : ℚ)) * 100
      ({ s with
          compliant_controls := b.1
          non_compliant_controls := b.2.1
          missing_controls := b.2.2
          compliance_score := score },
        some ⟨b.1, b.2.1, b.2.2, score⟩)

/-- The recommendation built for one non-compliant control
(lines 151-175): three control-specific templates, else the generic
fallback. -/
def recNonCompliant (item : NonCompliantEntry) : Recommendation :=
  if item.control = "Disable LOAD DATA LOCAL INFILE" then
    ⟨item.control,
      "Set load-infile=0 in MySQL configuration to prevent local file access. Current value: "
        ++ item.current ++ ", Expected: " ++ item.expected⟩
  else if item.control = "Error Limit" then
    ⟨item.control,
      "Change max_connect_errors=" ++ item.expected
        ++ " in my.cnf to prevent brute force attacks. Current value: " ++ item.current⟩
  else if item.control = "Server-Side Scripting" then
    ⟨item.control,
      "Disable server-side scripting to mitigate JavaScript injection attacks. Current state: "
        ++ item.current ++ ", Expected: " ++ item.expected⟩
  else
    ⟨item.control,
      "Update " ++ item.control ++ " configuration from " ++ item.current
        ++ " to " ++ item.expected⟩

/-- The recommendation built for one missing control (lines 178-188): one
control-specific template, else the generic fallback. -/
def recMissing (control : String) : Recommendation :=
  if control = "Encryption" then
    ⟨control, "Configure TLS for database connections"⟩
  else
    ⟨control, "Implement " ++ control ++ " according to CIS benchmark guidelines"⟩

/-- The body of `generate_recommendations` (lines 146-190) as a function
of its two inputs: one recommendation appended per non-compliant item,
then one per missing control. -/
def genRecommendations (non_compliant : List NonCompliantEntry)
    (missing : List String) : List Recommendation :=
  non_compliant.map recNonCompliant ++ missing.map recMissing

/-- The method `generate_recommendations`, reading its inputs from the
session object. -/
def generate_recommendations (s : ToolState) : List Recommendation :=
  genRecommendations s.non_compliant_controls s.missing_controls

/-- Two-decimal rounding as applied by the `:.2f` format specifier at
display time (lines 207 and 270-272). -/
def roundTo2 (q : ℚ) : ℚ := (round (q * 100) : ℤ) / 100

/-- The data interpolated into the HTML report by `generate_report`
(lines 200-274); the surrounding markup carries no further information. -/
structure Report where
  baseline_filename : String
  cis_filename : String
  scoreDisplay : ℚ
  compliant : List String
  non_compliant : List NonCompliantEntry
  missing : List String
  recommendations : List Recommendation
  compliantPercentDisplay : ℚ
  nonCompliantPercentDisplay : ℚ
  missingPercentDisplay : ℚ
deriving DecidableEq, Repr

/-- Method `generate_report` (lines 192-304).  Guard (lines 194-196): if
`self.compliance_data` is falsy, print `"... Please analyze compliance
first."` and return `None`.  Otherwise render the report from the current
session fields: the stored score and the three percentage breakdowns are
rounded to two decimals by `:.2f` only here, at display time. -/
def generate_report (s : ToolState) (baseline_filename cis_filename : String) :
    Option Report :=
  match s.compliance_data with
  | none => none
  | some data =>
    if data.isEmpty then none
    else
      let total : ℚ := (data.length : ℚ)
      some
        { baseline_filename := baseline_filename
          cis_filename := cis_filename
          scoreDisplay := roundTo2 s.compliance_score
          compliant := s.compliant_controls
          non_compliant := s.non_compliant_controls
          missing := s.missing_controls
          recommendations := generate_recommendations s
          compliantPercentDisplay :=
            roundTo2 (((s.compliant_controls.length : ℚ) / total) * 100)
          nonCompliantPercentDisplay :=
            roundTo2 (((s.non_compliant_controls.length : ℚ) / total) * 100)
          missingPercentDisplay :=
            roundTo2 (((s.missing_controls.length : ℚ) / total) * 100) }

/-- The supported document formats of `_parse_document` (lines 57-70). -/
inductive DocFormat where
  | pdf
  | docx
  | text
deriving DecidableEq, Repr

/-- Python `str.lower()` embedded at the character-list level (for the
ASCII extensions compared in `_parse_document` this agrees with Python). -/
def pyLower (s : String) : String := String.mk (s.data.map Char.toLower)

/-- The extension dispatch of `_parse_document` (lines 59-70): the
extension produced by `os.path.splitext` is lowercased before each
comparison; `.pdf`, `.docx`, `.txt` and `.csv` select a parser, anything
else prints "Unsupported file format" and returns `None`. -/
def parseDocumentFormat (ext : String) : Option DocFormat :=
  if pyLower ext = ".pdf" then some DocFormat.pdf
  else if pyLower ext = ".docx" then some DocFormat.docx
  else if pyLower ext = ".txt" ∨ pyLower ext = ".csv" then some DocFormat.text
  else none

/-- Modelled from the spec: a classifier whose rule 1 tests only
`current == expected`, dropping the second disjunct of line 124; used to
compare against `classifyControl` for the redundancy claim. -/
def classifyControlSimple (v : ControlValues) : Bucket :=
  if v.current = v.expected then Bucket.compliant
  else if v.current = "missing" then Bucket.missing
  else Bucket.nonCompliant

/-- Modelled from the spec: `classifyList` with `classifyControlSimple`
in place of `classifyControl`. -/
def classifyListSimple :
    List (String × ControlValues) →
    List String × List NonCompliantEntry × List String
  | [] => ([], [], [])
  | (name, v) :: rest =>
    let r := classifyListSimple rest
    match classifyControlSimple v with
    | Bucket.compliant => (name :: r.1, r.2.1, r.2.2)
    | Bucket.nonCompliant => (r.1, ⟨name, v.expected, v.current⟩ :: r.2.1, r.2.2)
    | Bucket.missing => (r.1, r.2.1, name :: r.2.2)

/-- Modelled from the spec: `analyze_compliance` built on the simplified
classifier. -/
def analyze_compliance_simple (s : ToolState) : ToolState × Option AnalysisResult :=
  match s.compliance_data with
  | none => (s, none)
  | some data =>
    if data.isEmpty then (s, none)
    else
      let b := classifyListSimple data
      let score : ℚ := ((b.1.length : ℚ) / (data.length : ℚ)) * 100
      ({ s with
          compliant_controls := b.1
          non_compliant_controls := b.2.1
          missing_controls := b.2.2
          compliance_score := score },
        some ⟨b.1, b.2.1, b.2.2, score⟩)

end Baseline

namespace Baseline

theorem classifyList_length_sum (data : List (String × ControlValues)) :
    (classifyList data).1.length + (classifyList data).2.1.length
      + (classifyList data).2.2.length = data.length := by
  induction data with
  | nil => rfl
  | cons p rest ih =>
    obtain ⟨name, v⟩ := p
    simp only [classifyList]
    cases h : classifyControl v <;> simp [h] <;> omega

theorem classifyList_mem_compliant (data : List (String × ControlValues))
    (name : String) (v : ControlValues)
    (hmem : (name, v) ∈ data) (hc : classifyControl v = Bucket.compliant) :
    name ∈ (classifyList data).1 := by
  induction data with
  | nil => cases hmem
  | cons p rest ih =>
    rcases List.mem_cons.mp hmem with h | h
    · subst h
      simp only [classifyList, hc]
      exact List.mem_cons_self _ _
    · obtain ⟨n', v'⟩ := p
      have hr := ih h
      simp only [classifyList]
      cases hcv : classifyControl v' <;> simp [hcv] <;> first | exact Or.inr hr | exact hr

end Baseline

namespace Baseline

theorem classifyControlSimple_eq (v : ControlValues) :
    classifyControlSimple v = classifyControl v := by
  unfold classifyControl classifyControlSimple
  by_cases h : v.current = v.expected
  · simp [h]
  · have h2 : ¬(v.current = "implemented" ∧ v.expected = "implemented") := by
      rintro ⟨h1, h3⟩
      exact h (h1.trans h3.symm)
    simp [h, h2]

theorem classifyListSimple_eq (data : List (String × ControlValues)) :
    classifyListSimple data = classifyList data := by
  induction data with
  | nil => rfl
  | cons p rest ih =>
    obtain ⟨name, v⟩ := p
    simp only [classifyListSimple, classifyList, ih, classifyControlSimple_eq]

/-- C1: every control mapping handed to `analyze_compliance` is split into
the three buckets exactly: whenever the analysis returns a result for the
stored mapping, the bucket sizes add up to the number of controls. -/
theorem analyze_compliance_partitions (s : ToolState)
    (data : List (String × ControlValues)) (r : AnalysisResult)
    (hd : s.compliance_data = some data)
    (hr : (analyze_compliance s).2 = some r) :
    r.compliant.length + r.non_compliant.length + r.missing.length
      = data.length := by
  unfold analyze_compliance at hr
  rw [hd] at hr
  by_cases he : data.isEmpty
  · simp [he] at hr
  · simp [he] at hr
    rw [← hr]
    exact classifyList_length_sum data

theorem analyze_compliance_partitions_witness :
    ((⟨some [("A", ⟨"x", "x"⟩)], [], [], [], 0⟩ : ToolState).compliance_data
        = some [("A", ⟨"x", "x"⟩)])
      ∧ (⟨["A"], [], [], (100 : ℚ)⟩ : AnalysisResult).compliant.length
          + (⟨["A"], [], [], (100 : ℚ)⟩ : AnalysisResult).non_compliant.length
          + (⟨["A"], [], [], (100 : ℚ)⟩ : AnalysisResult).missing.length
        = ([("A", (⟨"x", "x"⟩ : ControlValues))]).length := by
  refine ⟨rfl, ?_⟩
  refine analyze_compliance_partitions ⟨some [("A", ⟨"x", "x"⟩)], [], [], [], 0⟩
    [("A", ⟨"x", "x"⟩)] ⟨["A"], [], [], (100 : ℚ)⟩ rfl ?_
  simp [analyze_compliance, classifyList, classifyControl]

end Baseline

namespace Baseline

/-- C2: a control whose expected value is the string "missing" and whose
current value equals it matches rule 1's equality test first, so the
classifier puts it in the compliant bucket, never the missing bucket. -/
theorem missing_equal_expected_compliant (data : List (String × ControlValues))
    (name : String) (v : ControlValues)
    (hmem : (name, v) ∈ data)
    (he : v.expected = "missing") (hc : v.current = v.expected) :
    classifyControl v = Bucket.compliant
      ∧ classifyControl v ≠ Bucket.missing
      ∧ name ∈ (classifyList data).1 := by
  have h1 : classifyControl v = Bucket.compliant := by
    unfold classifyControl
    simp [hc]
  exact ⟨h1, by simp [h1], classifyList_mem_compliant data name v hmem h1⟩

theorem missing_equal_expected_compliant_witness :
    classifyControl ⟨"missing", "missing"⟩ = Bucket.compliant
      ∧ classifyControl ⟨"missing", "missing"⟩ ≠ Bucket.missing
      ∧ "Ghost Control" ∈ (classifyList [("Ghost Control", ⟨"missing", "missing"⟩)]).1 :=
  missing_equal_expected_compliant [("Ghost Control", ⟨"missing", "missing"⟩)]
    "Ghost Control" ⟨"missing", "missing"⟩ (List.mem_singleton.mpr rfl) rfl rfl

/-- C3: on the fixed seven-control example dataset of `extract_controls`,
`analyze_compliance` returns exactly the buckets stated in the spec and
the score 300/7 (= 3/7 ⋅ 100 ≈ 42.86; `roundTo2` displays it as 42.86). -/
theorem example_dataset_analysis :
    (analyze_compliance (extract_controls initState).1).2 =
      some { compliant := ["Strong Password Policy", "Access Control", "User Management"]
           , non_compliant :=
               [ ⟨"Disable LOAD DATA LOCAL INFILE", "0", "1"⟩
               , ⟨"Error Limit", "3", "10"⟩
               , ⟨"Server-Side Scripting", "disabled", "enabled"⟩ ]
           , missing := ["Encryption"]
           , score := 300 / 7 }
      ∧ roundTo2 (300 / 7) = 4286 / 100 := by
  constructor
  · have hb : classifyList exampleControls =
        (["Strong Password Policy", "Access Control", "User Management"],
         [ ⟨"Disable LOAD DATA LOCAL INFILE", "0", "1"⟩
         , ⟨"Error Limit", "3", "10"⟩
         , ⟨"Server-Side Scripting", "disabled", "enabled"⟩ ],
         ["Encryption"]) := by decide
    simp [analyze_compliance, extract_controls, initState, hb]
    norm_num [exampleControls]
    simp
  · rw [roundTo2, round_eq]
    norm_num

/-- C6: the second disjunct of rule 1 is redundant: the classifier whose
rule 1 tests only `current == expected` yields the same state and the
same result as the implemented one on every session state. -/
theorem simple_rule_one_equivalent (s : ToolState) :
    analyze_compliance_simple s = analyze_compliance s := by
  unfold analyze_compliance analyze_compliance_simple
  cases hd : s.compliance_data with
  | none => rfl
  | some data => simp [classifyListSimple_eq]

/-- C7: `analyze_compliance` is idempotent on the session state: running
it a second time from the state the first run produced returns exactly
the first run's state and result, for every starting state. -/
theorem analyze_compliance_idempotent (s : ToolState) :
    analyze_compliance (analyze_compliance s).1 = analyze_compliance s := by
  unfold analyze_compliance
  cases hd : s.compliance_data with
  | none => simp [hd]
  | some data =>
    by_cases he : data.isEmpty
    · simp [hd, he]
    · simp [hd, he]

end Baseline

namespace Baseline

/-- C4 counterexample: after `extract_controls` but before any analysis
(buckets empty, score still 0), `generate_report` does not return `None`:
its guard tests `self.compliance_data`, which extraction already set. -/
theorem report_before_analysis_not_none :
    (extract_controls initState).1.compliance_score = 0
      ∧ (extract_controls initState).1.compliant_controls = []
      ∧ generate_report (extract_controls initState).1 "baseline.txt" "cis.txt" ≠ none := by
  refine ⟨rfl, rfl, ?_⟩
  simp [generate_report, extract_controls, initState, exampleControls]

/-- C4 amended: `generate_report` aborts with `None` exactly when no
compliance data has been extracted (`self.compliance_data` is `None` or
empty); it does not detect whether `analyze_compliance` itself ran. -/
theorem report_guard_requires_extracted_data (s : ToolState)
    (b c : String)
    (h : s.compliance_data = none ∨ s.compliance_data = some []) :
    generate_report s b c = none := by
  rcases h with h | h <;> simp [generate_report, h]

theorem report_guard_requires_extracted_data_witness :
    generate_report initState "baseline.txt" "cis.txt" = none :=
  report_guard_requires_extracted_data initState "baseline.txt" "cis.txt" (Or.inl rfl)

/-- C5: for every non-empty control mapping the stored score is exactly
100 ⋅ compliant / total, kept at full precision; the two-decimal rounding
`roundTo2` is applied only to the value the report displays. -/
theorem score_exact_rounded_at_display (s : ToolState)
    (data : List (String × ControlValues))
    (hd : s.compliance_data = some data) (hne : data ≠ []) :
    (analyze_compliance s).1.compliance_score
        = 100 * ((analyze_compliance s).1.compliant_controls.length : ℚ)
            / (data.length : ℚ)
      ∧ ∀ b c : String,
          (generate_report (analyze_compliance s).1 b c).map Report.scoreDisplay
            = some (roundTo2 ((analyze_compliance s).1.compliance_score)) := by
  have he : data.isEmpty = false := by
    cases data with
    | nil => exact absurd rfl hne
    | cons x xs => rfl
  have hst : (analyze_compliance s).1
      = { s with
            compliant_controls := (classifyList data).1
            non_compliant_controls := (classifyList data).2.1
            missing_controls := (classifyList data).2.2
            compliance_score :=
              (((classifyList data).1.length : ℚ) / (data.length : ℚ)) * 100 } := by
    unfold analyze_compliance
    rw [hd]
    simp [he]
  constructor
  · rw [hst]
    ring
  · intro b c
    rw [hst]
    simp [generate_report, hd, he]

theorem score_exact_rounded_at_display_witness :
    (analyze_compliance (extract_controls initState).1).1.compliance_score
        = 100 * ((analyze_compliance (extract_controls initState).1).1.compliant_controls.length : ℚ)
            / ((exampleControls).length : ℚ)
      ∧ (generate_report (analyze_compliance (extract_controls initState).1).1
            "baseline.txt" "cis.txt").map Report.scoreDisplay
          = some (roundTo2 ((analyze_compliance (extract_controls initState).1).1.compliance_score)) :=
  ⟨(score_exact_rounded_at_display (extract_controls initState).1 exampleControls rfl
      (by decide)).1,
   (score_exact_rounded_at_display (extract_controls initState).1 exampleControls rfl
      (by decide)).2 "baseline.txt" "cis.txt"⟩

/-- C8: `generate_recommendations` is total: one recommendation per input
item, so the output length is the sum of the two input lengths, and a
control name matching no template gets the generic fallback text instead
of an error. -/
theorem recommendations_one_per_item (nc : List NonCompliantEntry)
    (m : List String) :
    (genRecommendations nc m).length = nc.length + m.length
      ∧ (∀ e : NonCompliantEntry,
          e.control ≠ "Disable LOAD DATA LOCAL INFILE" →
          e.control ≠ "Error Limit" →
          e.control ≠ "Server-Side Scripting" →
            recNonCompliant e
              = ⟨e.control, "Update " ++ e.control ++ " configuration from "
                  ++ e.current ++ " to " ++ e.expected⟩)
      ∧ (∀ c : String, c ≠ "Encryption" →
            recMissing c
              = ⟨c, "Implement " ++ c ++ " according to CIS benchmark guidelines"⟩) := by
  refine ⟨by simp [genRecommendations], ?_, ?_⟩
  · intro e h1 h2 h3
    simp [recNonCompliant, h1, h2, h3]
  · intro c h
    simp [recMissing, h]

theorem recommendations_one_per_item_witness :
    (genRecommendations [⟨"Custom Control", "secure", "open"⟩] ["Other Control"]).length
        = ([(⟨"Custom Control", "secure", "open"⟩ : NonCompliantEntry)]).length
            + (["Other Control"]).length
      ∧ recNonCompliant ⟨"Custom Control", "secure", "open"⟩
          = ⟨"Custom Control", "Update " ++ "Custom Control" ++ " configuration from "
              ++ "open" ++ " to " ++ "secure"⟩
      ∧ recMissing "Other Control"
          = ⟨"Other Control", "Implement " ++ "Other Control"
              ++ " according to CIS benchmark guidelines"⟩ :=
  ⟨(recommendations_one_per_item [⟨"Custom Control", "secure", "open"⟩] ["Other Control"]).1,
   (recommendations_one_per_item [⟨"Custom Control", "secure", "open"⟩] ["Other Control"]).2.1
      ⟨"Custom Control", "secure", "open"⟩ (by decide) (by decide) (by decide),
   (recommendations_one_per_item [⟨"Custom Control", "secure", "open"⟩] ["Other Control"]).2.2
      "Other Control" (by decide)⟩

/-- C9: with no compliance data (`None` or the empty dict) the analysis
returns `None` and leaves the session state untouched, so the division by
`total_controls` is never reached. -/
theorem analyze_compliance_no_data (s : ToolState)
    (h : s.compliance_data = none ∨ s.compliance_data = some []) :
    analyze_compliance s = (s, none) := by
  rcases h with h | h <;> simp [analyze_compliance, h]

theorem analyze_compliance_no_data_witness :
    analyze_compliance initState = (initState, none) :=
  analyze_compliance_no_data initState (Or.inl rfl)

/-- C10: `_parse_document` dispatches on the lowercased extension, so the
dispatch is case-insensitive (it depends only on the lowercase form),
uppercase variants of the four supported extensions are accepted, and any
extension whose lowercase form is none of `.pdf`, `.docx`, `.txt`, `.csv`
yields `None` rather than an exception. -/
theorem parse_document_dispatch_case_insensitive :
    (∀ e₁ e₂ : String, pyLower e₁ = pyLower e₂ →
        parseDocumentFormat e₁ = parseDocumentFormat e₂)
      ∧ parseDocumentFormat ".PDF" = some DocFormat.pdf
      ∧ parseDocumentFormat ".Docx" = some DocFormat.docx
      ∧ parseDocumentFormat ".TXT" = some DocFormat.text
      ∧ parseDocumentFormat ".CSV" = some DocFormat.text
      ∧ ∀ ext : String,
          pyLower ext ≠ ".pdf" → pyLower ext ≠ ".docx" →
          pyLower ext ≠ ".txt" → pyLower ext ≠ ".csv" →
            parseDocumentFormat ext = none := by
  refine ⟨?_, by decide, by decide, by decide, by decide, ?_⟩
  · intro e₁ e₂ h
    unfold parseDocumentFormat
    rw [h]
  · intro ext h1 h2 h3 h4
    simp [parseDocumentFormat, h1, h2, h3, h4]

theorem parse_document_dispatch_witness :
    parseDocumentFormat ".PdF" = parseDocumentFormat ".pdf"
      ∧ parseDocumentFormat ".exe" = none :=
  ⟨parse_document_dispatch_case_insensitive.1 ".PdF" ".pdf" (by decide),
   parse_document_dispatch_case_insensitive.2.2.2.2.2 ".exe"
      (by decide) (by decide) (by decide) (by decide)⟩

end Baseline
